import Mathlib

/-!
# Gimbal control panel (`frontend/script.js`)

A shallow embedding of the browser script: the values it reads out of JSON,
the page it renders into, and one Lean function per event handler.

Conventions of the embedding

* A JavaScript value that came out of `JSON.parse` (or a property read on such
  a value) is a `JVal`.  Finite numbers are rationals; `NaN` appears only as the
  result of `parseInt` and is the `none` of `Option Int`.
* Text produced by the platform rather than by the script (number formatting of
  non-integers, `toLocaleTimeString`, the text of a thrown error, coercion of a
  non-number to a number) is supplied by a `Platform` record.
* The page is a record of the script's two variables, of the DOM properties the
  script writes, and of two traces: the frames handed to `ws.send` and the
  requests handed to `fetch`, both in call order.
* An `async` handler is split at its `await`: the part that runs on the click,
  and the part that runs when the response arrives.
-/

namespace GimbalUI

/-! ## JavaScript values -/

/-- JavaScript values reachable from parsed JSON. An `obj` lists the own
properties of the object in insertion order. -/
inductive JVal where
  | undefined
  | null
  | bool (b : Bool)
  | num (q : Rat)
  | str (s : String)
  | arr (items : List JVal)
  | obj (fields : List (String × JVal))

/-- Errors the script can run into. -/
inductive JSError where
  | fetchRejected
  | bodyNotJson
  | readOfNullish (prop : String)
  | notAFunction (prop : String)

/-- Platform-supplied text. -/
structure Platform where
  /-- The text of `Number::toString` for a number that is not an integer of
  magnitude at most 2^53. -/
  numToString : Rat → String
  /-- The text of `new Date(x).toLocaleTimeString()`; `none` is `NaN`. -/
  localeTime : Option Rat → String
  /-- The number `ToNumber` gives for a string, an array or an object; `none` is `NaN`. -/
  coerce : JVal → Option Rat
  /-- The text of a thrown error when it is concatenated to a string. -/
  errText : JSError → String
  /-- The text of `Array.prototype.toString` on an array with the given elements. -/
  arrayText : List JVal → String

/-- JavaScript truthiness (`ToBoolean`). -/
def truthy : JVal → Bool
  | .undefined => false
  | .null => false
  | .bool b => b
  | .num q => decide (q ≠ 0)
  | .str s => decide (s ≠ "")
  | .arr _ => true
  | .obj _ => true

/-- The operator `===`. Two arrays or objects that come from different
messages are different references, so they are never strictly equal. -/
def strictEq : JVal → JVal → Bool
  | .undefined, .undefined => true
  | .null, .null => true
  | .bool a, .bool b => a == b
  | .num a, .num b => decide (a = b)
  | .str a, .str b => a == b
  | _, _ => false

/-- Own-property lookup in a field list. -/
def lookupField (k : String) : List (String × JVal) → JVal
  | [] => .undefined
  | (k', v) :: rest => if k' == k then v else lookupField k rest

/-- Property read `v.k` for the data property names the script reads
(`type`, `payload`, `connected`, `last_ack_ts`, `errors`, `ports`, `detail`,
`status`): it throws on `undefined` and `null`, finds the field of an object,
and is `undefined` on every other value. -/
def getProp (v : JVal) (k : String) : Except JSError JVal :=
  match v with
  | .undefined => .error (.readOfNullish k)
  | .null => .error (.readOfNullish k)
  | .obj fields => .ok (lookupField k fields)
  | _ => .ok .undefined

/-- The operator `||`. -/
def orElse (a b : JVal) : JVal := if truthy a then a else b

/-- Number to string (`Number::toString`): the decimal digits of an integer of
magnitude at most 2^53, where every integer is a number and its shortest
round-trip digits are all of its digits; platform text for any other number. -/
def numToStr (P : Platform) (q : Rat) : String :=
  if q.den = 1 ∧ q.num.natAbs ≤ 2 ^ 53 then toString q.num else P.numToString q

/-- String conversion (`ToString`), as done by template literals and `+`. -/
def toStringJS (P : Platform) : JVal → String
  | .undefined => "undefined"
  | .null => "null"
  | .bool true => "true"
  | .bool false => "false"
  | .num q => numToStr P q
  | .str s => s
  | .arr items => P.arrayText items
  | .obj _ => "[object Object]"

/-- The value a DOM text property takes when a script value is assigned to
it: `null` and `undefined` give the empty text, other values their string. -/
def domText (P : Platform) : JVal → String
  | .undefined => ""
  | .null => ""
  | v => toStringJS P v

/-- The value an input's `value` takes on assignment: `null` gives the empty
text, other values their string. -/
def inputText (P : Platform) : JVal → String
  | .null => ""
  | v => toStringJS P v

/-- Numeric conversion (`ToNumber`); `none` is `NaN`. -/
def toNumber (P : Platform) : JVal → Option Rat
  | .undefined => none
  | .null => some 0
  | .bool true => some 1
  | .bool false => some 0
  | .num q => some q
  | v => P.coerce v

/-! ## `parseInt` -/

/-- White space and line terminators skipped by `parseInt`. -/
def isWhiteSpace (c : Char) : Bool :=
  let n := c.toNat
  n == 9 || n == 10 || n == 11 || n == 12 || n == 13 || n == 32 || n == 160 ||
  n == 0x1680 || (0x2000 ≤ n && n ≤ 0x200A) || n == 0x2028 || n == 0x2029 ||
  n == 0x202F || n == 0x205F || n == 0x3000 || n == 0xFEFF

/-- The value of a character read as a digit; 36 when it is none. -/
def digitVal (c : Char) : Nat :=
  let n := c.toNat
  if 48 ≤ n ∧ n ≤ 57 then n - 48
  else if 97 ≤ n ∧ n ≤ 122 then n - 97 + 10
  else if 65 ≤ n ∧ n ≤ 90 then n - 65 + 10
  else 36

/-- The longest prefix of radix-`r` digits, as digit values. -/
def takeDigits (r : Nat) : List Char → List Nat
  | [] => []
  | c :: cs => if digitVal c < r then digitVal c :: takeDigits r cs else []

/-- The number written by a list of digit values, most significant first. -/
def digitsValue (r : Nat) (ds : List Nat) : Nat :=
  ds.foldl (fun acc d => r * acc + d) 0

/-- The function `parseInt(text)` with no radix argument, on the characters
of the text: skip white space, read a sign, switch to radix 16 after `0x`,
read the longest digit prefix. `none` is `NaN`; the result is the mathematical
integer, which is the number returned whenever its magnitude is at most 2^53. -/
def parseIntChars (cs : List Char) : Option Int :=
  let s := cs.dropWhile isWhiteSpace
  let neg := s.head? == some '-'
  let s := if s.head? == some '-' ∨ s.head? == some '+' then s.tail else s
  let hex := match s with
    | a :: b :: _ => a == '0' && (b == 'x' || b == 'X')
    | _ => false
  let r := if hex then 16 else 10
  let s := if hex then s.drop 2 else s
  let ds := takeDigits r s
  if ds.isEmpty then none
  else some (if neg then - (digitsValue r ds : Int) else (digitsValue r ds : Int))

/-- The function `parseInt` on a text. -/
def parseIntStr (s : String) : Option Int := parseIntChars s.toList

/-- The call `parseInt(v)`: the argument is converted to a string first. -/
def parseInt (P : Platform) (v : JVal) : Option Int := parseIntStr (toStringJS P v)

/-- A number as `JSON.stringify` writes it: `NaN` becomes `null`. -/
def jsonNum : Option Int → JVal
  | some n => .num n
  | none => .null

/-! ## The page -/

/-- A call of `fetch`. -/
structure Request where
  method : String
  url : String
  headers : List (String × String)
  /-- The value given to `JSON.stringify` for the body, if there is a body. -/
  body : Option JVal

/-- The script's variables, the DOM properties it touches, and the traces of
its calls to `ws.send` and `fetch`. -/
structure Page where
  /-- The variable `isConnected`. -/
  isConnected : JVal
  /-- The variable `currentSpeed`. -/
  currentSpeed : JVal
  /-- Text of `#status-indicator`. -/
  statusText : String
  /-- Class of `#status-indicator`. -/
  statusClass : String
  /-- Children of `#log-container`, first child first. -/
  logView : List String
  /-- Text of `#last-ack`. -/
  lastAck : String
  /-- Text of `#error-count`. -/
  errorCount : String
  /-- Values of the options of `#port-list`, in order. -/
  portList : List String
  /-- Value of `#port-input`. -/
  portInput : String
  /-- Value of `#baud-select`. -/
  baudSelect : String
  /-- Text of `#speed-val`. -/
  speedVal : String
  /-- Values given to `JSON.stringify` for `ws.send`, oldest first. -/
  sent : List JVal
  /-- Calls of `fetch`, oldest first. -/
  requests : List Request

/-- The page after the script's top-level `let` statements, over the markup's
initial DOM. -/
def initPage (markup : Page) : Page :=
  { markup with isConnected := .bool false, currentSpeed := .num 50 }

/-- The log container after `log(msg)` at clock text `now`: the new line goes
first, and the last child is removed when there are more than 50. -/
def logLines (now msg : String) (view : List String) : List String :=
  let view := ("[" ++ now ++ "] " ++ msg) :: view
  if view.length > 50 then view.dropLast else view

/-- The function `log(msg)`. -/
def log (now msg : String) (pg : Page) : Page :=
  { pg with logView := logLines now msg pg.logView }

/-! ## Connection monitor -/

/-- The text shown for `last_ack_ts`. -/
def lastAckText (P : Platform) (ts : JVal) : String :=
  if truthy ts then P.localeTime ((toNumber P ts).map (· * 1000)) else "Never"

/-- The handler `ws.onmessage`, on the outcome of `JSON.parse(event.data)`
(`none` when it throws). A thrown error ends the handler. -/
def onmessage (P : Platform) (now : String) (parsed : Option JVal) (pg : Page) : Page :=
  match parsed with
  | none => pg
  | some msg =>
    match getProp msg "type" with
    | .error _ => pg
    | .ok ty =>
      if strictEq ty (.str "state") then
        match getProp msg "payload" with
        | .error _ => pg
        | .ok state =>
          match getProp state "connected", getProp state "last_ack_ts",
              getProp state "errors" with
          | .ok connected, .ok ts, .ok errors =>
            let pg :=
              if !(strictEq connected pg.isConnected) then
                let pg := { pg with isConnected := connected }
                let pg := { pg with
                  statusText := if truthy pg.isConnected then "Connected" else "Disconnected" }
                let pg := { pg with
                  statusClass :=
                    "status " ++ (if truthy pg.isConnected then "online" else "offline") }
                log now (if truthy pg.isConnected then "Driver Connected"
                  else "Driver Disconnected") pg
              else pg
            let pg := { pg with lastAck := lastAckText P ts }
            { pg with errorCount := domText P errors }
          | _, _, _ => pg
      else pg

/-! ## Port selector -/

/-- How a `fetch` followed by `res.json()` ends. -/
inductive FetchOutcome where
  /-- The promise of `fetch` rejects. -/
  | rejected
  /-- A response with the given status arrives; `body` is the parsed JSON, or
  `none` when `res.json()` rejects. -/
  | response (status : Nat) (body : Option JVal)

/-- The call `fetch('/api/ports')` that `loadPorts` starts with. -/
def loadPortsStart (pg : Page) : Page :=
  { pg with requests := pg.requests ++ [⟨"GET", "/api/ports", [], none⟩] }

/-- The body of `data.ports.forEach`: append one option whose value is the port. -/
def addOption (P : Platform) (pg : Page) (port : JVal) : Page :=
  { pg with portList := pg.portList ++ [toStringJS P port] }

/-- The rest of `loadPorts`, once the request has ended. Every throw inside
the `try` is caught and logged. -/
def loadPortsDone (P : Platform) (now : String) (out : FetchOutcome) (pg : Page) : Page :=
  let failed (e : JSError) (pg : Page) : Page :=
    log now ("Failed to load ports: " ++ P.errText e) pg
  match out with
  | .rejected => failed .fetchRejected pg
  | .response _ none => failed .bodyNotJson pg
  | .response _ (some data) =>
    let pg := { pg with portList := [] }
    match getProp data "ports" with
    | .error e => failed e pg
    | .ok ports =>
      match ports with
      | .arr items =>
        let pg := items.foldl (addOption P) pg
        if items.length > 0 then { pg with portInput := inputText P (items.headD .undefined) }
        else pg
      | .undefined => failed (.readOfNullish "forEach") pg
      | .null => failed (.readOfNullish "forEach") pg
      | _ => failed (.notAFunction "forEach") pg

/-! ## Input controller -/

/-- The request the connect button sends. -/
def connectRequest (port : String) (baud : Option Int) : Request :=
  ⟨"POST", "/api/connect", [("Content-Type", "application/json")],
    some (.obj [("port", .str port), ("baud", jsonNum baud)])⟩

/-- The click handler of `#btn-connect`, up to its first `await`. -/
def connectClick (now : String) (pg : Page) : Page :=
  let port := pg.portInput
  let baud := parseIntStr pg.baudSelect
  if port = "" then log now "Error: Please select or enter a serial port." pg
  else { pg with requests := pg.requests ++ [connectRequest port baud] }

/-- The click handler of `#btn-connect`, after the request has ended. A
rejected `fetch`, a rejected `res.json()` and a property read on `null` are
uncaught: the handler ends there. -/
def connectDone (P : Platform) (now : String) (out : FetchOutcome) (pg : Page) : Page :=
  match out with
  | .rejected => pg
  | .response _ none => pg
  | .response status (some data) =>
    if status ≠ 200 then
      match getProp data "detail" with
      | .error _ => pg
      | .ok detail =>
        log now ("Error: " ++ toStringJS P (orElse detail (.str "Connection failed"))) pg
    else
      match getProp data "status" with
      | .error _ => pg
      | .ok st => log now ("Connect req: " ++ toStringJS P st) pg

/-- The `oninput` handler of `#speed-slider`, on the slider's value. -/
def speedInput (value : String) (pg : Page) : Page :=
  let pg := { pg with currentSpeed := .str value }
  { pg with speedVal := value }

/-- The object `sendMove` serialises. -/
def moveFrame (yaw pitch : Int) (speed : Option Int) : JVal :=
  .obj [("type", .str "gimbal_rate"), ("yaw", .num yaw), ("pitch", .num pitch),
    ("speed", jsonNum speed)]

/-- The function `sendMove(yaw, pitch)`. -/
def sendMove (P : Platform) (now : String) (yaw pitch : Int) (pg : Page) : Page :=
  let pg := log now ("UI: Move " ++ toString yaw ++ ", " ++ toString pitch ++ " @ " ++
    toStringJS P pg.currentSpeed ++ "%") pg
  { pg with sent := pg.sent ++ [moveFrame yaw pitch (parseInt P pg.currentSpeed)] }

/-- The function `stopMove()`. -/
def stopMove (pg : Page) : Page :=
  { pg with sent := pg.sent ++ [moveFrame 0 0 (some 0)] }

/-- Events a held button listens to. -/
inductive PressEvent where
  | mousedown
  | mouseup
  | mouseleave
  | touchstart
  | touchend
  deriving DecidableEq, Repr

/-- The handlers `setupHold(id, yaw, pitch)` installs on a button. -/
def holdHandler (P : Platform) (yaw pitch : Int) (now : String) (ev : PressEvent)
    (pg : Page) : Page :=
  match ev with
  | .mousedown => sendMove P now yaw pitch pg
  | .mouseup => stopMove pg
  | .mouseleave => stopMove pg
  | .touchstart => sendMove P now yaw pitch pg
  | .touchend => stopMove pg

/-- The four calls of `setupHold`: button id, yaw, pitch. -/
def holdControls : List (String × Int × Int) :=
  [("btn-up", 0, 1), ("btn-down", 0, -1), ("btn-left", -1, 0), ("btn-right", 1, 0)]

/-- The object a zoom button serialises. -/
def zoomFrame (action : String) : JVal :=
  .obj [("type", .str "zoom"), ("action", .str action)]

/-- The handlers `setupZoom(id, dir)` installs on a button. -/
def zoomHandler (dir : String) (_now : String) (ev : PressEvent) (pg : Page) : Page :=
  match ev with
  | .mousedown => { pg with sent := pg.sent ++ [zoomFrame dir] }
  | .mouseup => { pg with sent := pg.sent ++ [zoomFrame "stop"] }
  | .mouseleave => { pg with sent := pg.sent ++ [zoomFrame "stop"] }
  | .touchstart => { pg with sent := pg.sent ++ [zoomFrame dir] }
  | .touchend => { pg with sent := pg.sent ++ [zoomFrame "stop"] }

/-- The two calls of `setupZoom`: button id, direction. -/
def zoomControls : List (String × String) :=
  [("btn-zoom-in", "in"), ("btn-zoom-out", "out")]

/-- A run of handlers over a list of events, each with the clock text at its
delivery. -/
def runEvents {ε : Type} (h : String → ε → Page → Page) (evs : List (String × ε))
    (pg : Page) : Page :=
  evs.foldl (fun pg e => h e.1 e.2 pg) pg

/-! ## The two-state machine of a held control -/

/-- States of a continuous control. -/
inductive HoldState where
  | idle
  | active
  deriving DecidableEq, Repr

/-- Whether an event is a press-start; the others are press-end, press-leave
and touch-end. -/
def PressEvent.isStart : PressEvent → Bool
  | .mousedown => true
  | .touchstart => true
  | _ => false

/-- The machine of the design document (section 4.3), written from its
words: Idle becomes Active on a press-start and emits
the start command; Active becomes Idle on a press-end, press-leave or
touch-end and emits the stop command; any other event changes nothing and
emits nothing. -/
def machineStep (start stop : JVal) (st : HoldState) (ev : PressEvent) :
    HoldState × List JVal :=
  match st, ev.isStart with
  | .idle, true => (.active, [start])
  | .active, false => (.idle, [stop])
  | st, _ => (st, [])

/-- The commands the machine emits over a list of events. -/
def machineRun (start stop : JVal) : HoldState → List PressEvent → List JVal
  | _, [] => []
  | st, ev :: evs =>
    (machineStep start stop st ev).2 ++ machineRun start stop (machineStep start stop st ev).1 evs

/-- Whether every event of the list changes the machine's state. -/
def allChange : HoldState → List PressEvent → Bool
  | _, [] => true
  | .idle, ev :: evs => ev.isStart && allChange .active evs
  | .active, ev :: evs => !ev.isStart && allChange .idle evs

/-- The text of the log line for a message logged at clock text `now`. -/
def entryText (e : String × String) : String := "[" ++ e.1 ++ "] " ++ e.2

/-- A run of `log` calls, each a pair of clock text and message. -/
def logAll (calls : List (String × String)) (pg : Page) : Page :=
  calls.foldl (fun pg e => log e.1 e.2 pg) pg

/-- The indicator agrees with the stored flag. -/
def IndicatorAgrees (pg : Page) : Prop :=
  pg.statusText = (if truthy pg.isConnected then "Connected" else "Disconnected") ∧
  pg.statusClass = "status " ++ (if truthy pg.isConnected then "online" else "offline")

/-- The parsed message is a `state` message whose payload has the given
`connected`, `last_ack_ts` and `errors` (each `undefined` when absent). -/
def IsStateMsg (msg connected ts errors : JVal) : Prop :=
  getProp msg "type" = .ok (.str "state") ∧
  ∃ state, getProp msg "payload" = .ok state ∧
    getProp state "connected" = .ok connected ∧
    getProp state "last_ack_ts" = .ok ts ∧
    getProp state "errors" = .ok errors

/-- The wire form of a `state` message. -/
def stateMsg (connected ts errors : JVal) : JVal :=
  .obj [("type", .str "state"),
    ("payload", .obj [("connected", connected), ("last_ack_ts", ts), ("errors", errors)])]

/-- A page with an empty log, disconnected, as the markup and the script's
initialisation leave it. -/
def blankPage : Page :=
  initPage ⟨.undefined, .undefined, "Disconnected", "status offline", [], "-", "0", [], "",
    "115200", "50", [], []⟩

/-- A platform with fixed texts, for evaluating the handlers. -/
def demoPlatform : Platform :=
  ⟨fun _ => "n", fun _ => "12:00:00", fun _ => none, fun _ => "TypeError", fun _ => "a"⟩

/-- The command a handler sends for an event: the start command on a
press-start, the stop command otherwise. -/
def pressCommand (start stop : JVal) (ev : PressEvent) : JVal :=
  if ev.isStart then start else stop

/-- Whether `loadPorts` ends in its `catch`: the request is rejected, the body
is not JSON, or the parsed body has no `ports` array. -/
def portsFailure : FetchOutcome → Bool
  | .rejected => true
  | .response _ none => true
  | .response _ (some data) =>
    match getProp data "ports" with
    | .ok (.arr _) => false
    | _ => true

/-- The page after a `state` message, in closed form. -/
def afterState (P : Platform) (now : String) (connected ts errors : JVal) (pg : Page) : Page :=
  let pg :=
    if strictEq connected pg.isConnected then pg
    else
      { pg with
        isConnected := connected
        statusText := if truthy connected then "Connected" else "Disconnected"
        statusClass := "status " ++ (if truthy connected then "online" else "offline")
        logView := logLines now
          (if truthy connected then "Driver Connected" else "Driver Disconnected") pg.logView }
  { pg with lastAck := lastAckText P ts, errorCount := domText P errors }

/-! ## The log -/

theorem logLines_take (now msg : String) (l : List String) :
    logLines now msg (l.take 50) = (entryText (now, msg) :: l).take 50 := by
  unfold logLines entryText
  by_cases h : l.length < 50
  · have h1 : l.take 50 = l := List.take_of_length_le (by omega)
    simp only [h1, List.length_cons]
    rw [if_neg (by omega), List.take_of_length_le (by simp; omega)]
  · have h1 : (l.take 50).length = 50 := by simp; omega
    simp only [List.length_cons, h1]
    rw [if_pos (by omega), List.dropLast_eq_take]
    have h2 : min 50 l.length = 50 := by omega
    simp [List.take_take, h2]

theorem logAll_logView (calls : List (String × String)) (pg : Page) (l : List String)
    (h : pg.logView = l.take 50) :
    (logAll calls pg).logView = ((calls.reverse.map entryText) ++ l).take 50 := by
  induction calls generalizing pg l with
  | nil => simpa [logAll] using h
  | cons e rest ih =>
    have := ih (log e.1 e.2 pg) (entryText e :: l) (by
      simp only [log, h]; exact logLines_take e.1 e.2 l)
    simpa [logAll] using this

/-! ## The connection monitor -/

theorem onmessage_state (P : Platform) (now : String) (msg connected ts errors : JVal)
    (pg : Page) (h : IsStateMsg msg connected ts errors) :
    onmessage P now (some msg) pg = afterState P now connected ts errors pg := by
  obtain ⟨hty, state, hpl, hc, hts, herr⟩ := h
  have hst : strictEq (.str "state") (.str "state") = true := by simp [strictEq]
  unfold onmessage afterState
  simp only [hty, hpl, hc, hts, herr, hst, if_true]
  by_cases hs : strictEq connected pg.isConnected = true
  · simp [hs]
  · simp [hs, log]

theorem onmessage_cases (P : Platform) (now : String) (parsed : Option JVal) (pg : Page) :
    onmessage P now parsed pg = pg ∨
    ∃ msg connected ts errors, parsed = some msg ∧ IsStateMsg msg connected ts errors := by
  cases parsed with
  | none => left; rfl
  | some msg =>
    cases hty : getProp msg "type" with
    | error e => left; simp [onmessage, hty]
    | ok ty =>
      by_cases hst : strictEq ty (.str "state") = true
      · have hty2 : ty = .str "state" := by
          cases ty <;> simp [strictEq] at hst
          simp [hst]
        subst hty2
        cases hpl : getProp msg "payload" with
        | error e => left; simp [onmessage, hty, hpl]
        | ok state =>
          cases hc : getProp state "connected" with
          | error e => left; simp [onmessage, hty, hpl, hc]
          | ok c =>
            cases hts : getProp state "last_ack_ts" with
            | error e => left; simp [onmessage, hty, hpl, hc, hts]
            | ok ts =>
              cases herr : getProp state "errors" with
              | error e => left; simp [onmessage, hty, hpl, hc, hts, herr]
              | ok errors =>
                right
                exact ⟨msg, c, ts, errors, rfl, hty, state, hpl, hc, hts, herr⟩
      · left; simp [onmessage, hty, hst]

theorem strictEq_bool_left (c : Bool) (v : JVal) (h : strictEq (.bool c) v = true) :
    v = .bool c := by
  cases v <;> simp [strictEq] at h
  simp [h]

theorem afterState_agrees (P : Platform) (now : String) (connected ts errors : JVal)
    (pg : Page) (h : IndicatorAgrees pg) :
    IndicatorAgrees (afterState P now connected ts errors pg) := by
  unfold afterState
  by_cases hs : strictEq connected pg.isConnected = true
  · simpa [hs, IndicatorAgrees] using h
  · simp [hs, IndicatorAgrees]

theorem onmessage_agrees (P : Platform) (now : String) (parsed : Option JVal) (pg : Page)
    (h : IndicatorAgrees pg) : IndicatorAgrees (onmessage P now parsed pg) := by
  rcases onmessage_cases P now parsed pg with h1 | ⟨msg, c, ts, errors, rfl, hmsg⟩
  · rw [h1]; exact h
  · rw [onmessage_state P now msg c ts errors pg hmsg]
    exact afterState_agrees P now c ts errors pg h

theorem runEvents_onmessage_agrees (P : Platform) (evs : List (String × Option JVal))
    (pg : Page) (h : IndicatorAgrees pg) :
    IndicatorAgrees (runEvents (onmessage P) evs pg) := by
  induction evs generalizing pg with
  | nil => exact h
  | cons e rest ih => exact ih _ (onmessage_agrees P e.1 e.2 pg h)

theorem afterState_bool (P : Platform) (now : String) (c : Bool) (ts errors : JVal)
    (pg : Page) (h : IndicatorAgrees pg) :
    (afterState P now (.bool c) ts errors pg).isConnected = .bool c ∧
    (afterState P now (.bool c) ts errors pg).statusText =
      (if c then "Connected" else "Disconnected") ∧
    (afterState P now (.bool c) ts errors pg).statusClass =
      (if c then "status online" else "status offline") := by
  unfold afterState
  by_cases hs : strictEq (.bool c) pg.isConnected = true
  · have hv := strictEq_bool_left c pg.isConnected hs
    obtain ⟨h1, h2⟩ := h
    rw [hv] at h1 h2
    cases c <;> simp_all [truthy]
  · cases c <;> simp [hs, truthy]

theorem logLines_capped (now msg : String) (view : List String) (h : view.length ≤ 50) :
    logLines now msg view = (entryText (now, msg) :: view).take 50 := by
  have h1 : view.take 50 = view := List.take_of_length_le h
  have := logLines_take now msg view
  rwa [h1] at this

theorem isStateMsg_stateMsg (connected ts errors : JVal) :
    IsStateMsg (stateMsg connected ts errors) connected ts errors :=
  ⟨rfl, _, rfl, rfl, rfl, rfl⟩

/-! ## `parseInt` on decimal numerals -/

theorem digitVal_lt_ten (c : Char) (h : digitVal c < 10) : 48 ≤ c.toNat ∧ c.toNat ≤ 57 := by
  unfold digitVal at h
  by_cases h1 : 48 ≤ c.toNat ∧ c.toNat ≤ 57
  · exact h1
  · simp only [h1, if_false] at h
    split_ifs at h <;> omega

theorem isWhiteSpace_of_digit (c : Char) (h : 48 ≤ c.toNat ∧ c.toNat ≤ 57) :
    isWhiteSpace c = false := by
  unfold isWhiteSpace
  simp only [Bool.or_eq_false_iff, beq_eq_false_iff_ne, Bool.and_eq_false_iff,
    decide_eq_false_iff_not]
  omega

theorem digitVal_digitChar (k : Nat) (h : k < 10) : digitVal (Nat.digitChar k) = k := by
  interval_cases k <;> rfl


theorem foldl_digits (r a : Nat) (ds : List Nat) :
    ds.foldl (fun acc d => r * acc + d) a =
      a * r ^ ds.length + ds.foldl (fun acc d => r * acc + d) 0 := by
  induction ds generalizing a with
  | nil => simp
  | cons d rest ih =>
    simp only [List.foldl_cons, List.length_cons]
    rw [ih (r * a + d), ih (r * 0 + d)]
    ring

theorem digitsValue_cons (r d : Nat) (ds : List Nat) :
    digitsValue r (d :: ds) = d * r ^ ds.length + digitsValue r ds := by
  unfold digitsValue
  simp only [List.foldl_cons]
  rw [foldl_digits]
  simp

theorem toDigitsCore_spec (fuel n : Nat) (ds : List Char) (hf : n < fuel)
    (hds : ∀ c ∈ ds, digitVal c < 10) :
    (∀ c ∈ Nat.toDigitsCore 10 fuel n ds, digitVal c < 10) ∧
    Nat.toDigitsCore 10 fuel n ds ≠ [] ∧
    digitsValue 10 ((Nat.toDigitsCore 10 fuel n ds).map digitVal) =
      n * 10 ^ ds.length + digitsValue 10 (ds.map digitVal) := by
  induction fuel generalizing n ds with
  | zero => omega
  | succ fuel ih =>
    have hd : digitVal (Nat.digitChar (n % 10)) = n % 10 :=
      digitVal_digitChar _ (Nat.mod_lt _ (by norm_num))
    have hall : ∀ c ∈ Nat.digitChar (n % 10) :: ds, digitVal c < 10 := by
      intro c hc
      rcases List.mem_cons.mp hc with h | h
      · rw [h, hd]; exact Nat.mod_lt _ (by norm_num)
      · exact hds c h
    simp only [Nat.toDigitsCore]
    by_cases h0 : n / 10 = 0
    · simp only [h0, if_true]
      refine ⟨hall, by simp, ?_⟩
      rw [List.map_cons, digitsValue_cons, hd, List.length_map]
      have : n % 10 = n := Nat.mod_eq_of_lt (by omega)
      rw [this]
    · simp only [h0, if_false]
      have hlt : n / 10 < fuel := by omega
      obtain ⟨h1, h2, h3⟩ := ih (n / 10) (Nat.digitChar (n % 10) :: ds) hlt hall
      refine ⟨h1, h2, ?_⟩
      rw [h3, List.map_cons, digitsValue_cons, hd, List.length_map, List.length_cons, pow_succ]
      have hn : n * 10 ^ ds.length = (10 * (n / 10) + n % 10) * 10 ^ ds.length := by
        rw [Nat.div_add_mod n 10]
      rw [hn]
      ring

theorem takeDigits_decimal (cs : List Char) (h : ∀ c ∈ cs, digitVal c < 10) :
    takeDigits 10 cs = cs.map digitVal := by
  induction cs with
  | nil => rfl
  | cons c rest ih =>
    have hc := h c (List.mem_cons_self _ _)
    simp only [takeDigits, hc, if_true, List.map_cons]
    rw [ih (fun x hx => h x (List.mem_cons_of_mem _ hx))]

theorem parseIntChars_decimal (cs : List Char) (hne : cs ≠ [])
    (h : ∀ c ∈ cs, digitVal c < 10) :
    parseIntChars cs = some (digitsValue 10 (cs.map digitVal) : Int) := by
  cases cs with
  | nil => exact absurd rfl hne
  | cons c rest =>
    have hc := digitVal_lt_ten c (h c (List.mem_cons_self _ _))
    have hws := isWhiteSpace_of_digit c hc
    have hminus : c ≠ '-' := by
      intro e; rw [e] at hc; revert hc; decide
    have hplus : c ≠ '+' := by
      intro e; rw [e] at hc; revert hc; decide
    have hhex : (match c :: rest with
        | a :: b :: _ => a == '0' && (b == 'x' || b == 'X')
        | _ => false) = false := by
      cases rest with
      | nil => rfl
      | cons b rest2 =>
        have hb := digitVal_lt_ten b (h b (by simp))
        have hx : b ≠ 'x' := by
          intro e; rw [e] at hb; revert hb; decide
        have hX : b ≠ 'X' := by
          intro e; rw [e] at hb; revert hb; decide
        simp [hx, hX]
    unfold parseIntChars
    simp only [List.dropWhile_cons, hws]
    simp [hminus, hplus, hhex, takeDigits_decimal (c :: rest) h]


theorem parseIntChars_neg_decimal (cs : List Char) (hne : cs ≠ [])
    (h : ∀ c ∈ cs, digitVal c < 10) :
    parseIntChars ('-' :: cs) = some (-(digitsValue 10 (cs.map digitVal) : Int)) := by
  cases cs with
  | nil => exact absurd rfl hne
  | cons c rest =>
    have hws : isWhiteSpace '-' = false := by decide
    have hhex : (match c :: rest with
        | a :: b :: _ => a == '0' && (b == 'x' || b == 'X')
        | _ => false) = false := by
      cases rest with
      | nil => rfl
      | cons b rest2 =>
        have hb := digitVal_lt_ten b (h b (by simp))
        have hx : b ≠ 'x' := by
          intro e; rw [e] at hb; revert hb; decide
        have hX : b ≠ 'X' := by
          intro e; rw [e] at hb; revert hb; decide
        simp [hx, hX]
    unfold parseIntChars
    simp only [List.dropWhile_cons, hws]
    simp [hhex, takeDigits_decimal (c :: rest) h]

theorem toList_toString_nat (n : Nat) : (toString n).toList = Nat.toDigits 10 n := rfl

theorem toDigits_spec (n : Nat) :
    (∀ c ∈ Nat.toDigits 10 n, digitVal c < 10) ∧ Nat.toDigits 10 n ≠ [] ∧
    digitsValue 10 ((Nat.toDigits 10 n).map digitVal) = n := by
  have h := toDigitsCore_spec (n + 1) n [] (by omega) (by simp)
  simpa [Nat.toDigits, digitsValue] using h

theorem parseIntStr_toString_nat (n : Nat) : parseIntStr (toString n) = some (n : Int) := by
  obtain ⟨h1, h2, h3⟩ := toDigits_spec n
  unfold parseIntStr
  rw [toList_toString_nat, parseIntChars_decimal _ h2 h1, h3]

theorem parseIntStr_toString_int (b : Int) : parseIntStr (toString b) = some b := by
  cases b with
  | ofNat n => exact parseIntStr_toString_nat n
  | negSucc n =>
    obtain ⟨h1, h2, h3⟩ := toDigits_spec (n + 1)
    have : (toString (Int.negSucc n)).toList = '-' :: Nat.toDigits 10 (n + 1) := rfl
    unfold parseIntStr
    rw [this, parseIntChars_neg_decimal _ h2 h1, h3]
    rfl

theorem parseInt_str (P : Platform) (b : Int) :
    parseInt P (.str (toString b)) = some b := by
  simp [parseInt, toStringJS, parseIntStr_toString_int]

theorem numToStr_int (P : Platform) (n : Int) (h : n.natAbs ≤ 2 ^ 53) :
    numToStr P (n : Rat) = toString n := by
  unfold numToStr
  rw [if_pos (by simpa using h)]
  simp

theorem parseInt_fifty (P : Platform) : parseInt P (.num 50) = some 50 := by
  have h : numToStr P 50 = toString (50 : Int) := by
    have := numToStr_int P 50 (by norm_num)
    simpa using this
  simp only [parseInt, toStringJS, h]
  exact parseIntStr_toString_int 50

/-! ## Claims -/

/-- C1: starting from the script's initial state with the indicator showing
the disconnected status, after any sequence of inbound messages followed by a
`state` message whose `connected` is the boolean `c`, the stored flag is `c`
and the indicator shows "Connected" / "status online" when `c` is true and
"Disconnected" / "status offline" when it is false. -/
theorem status_agrees_with_last_state (P : Platform) (markup : Page)
    (hText : markup.statusText = "Disconnected")
    (hClass : markup.statusClass = "status offline")
    (evs : List (String × Option JVal)) (now : String) (msg ts errors : JVal) (c : Bool)
    (hmsg : IsStateMsg msg (.bool c) ts errors) :
    (onmessage P now (some msg) (runEvents (onmessage P) evs (initPage markup))).isConnected
      = .bool c ∧
    (onmessage P now (some msg) (runEvents (onmessage P) evs (initPage markup))).statusText
      = (if c then "Connected" else "Disconnected") ∧
    (onmessage P now (some msg) (runEvents (onmessage P) evs (initPage markup))).statusClass
      = (if c then "status online" else "status offline") := by
  have h0 : IndicatorAgrees (initPage markup) := by
    constructor
    · simp [initPage, truthy, hText]
    · simp [initPage, truthy, hClass]
  have h1 := runEvents_onmessage_agrees P evs _ h0
  rw [onmessage_state P now msg (.bool c) ts errors _ hmsg]
  exact afterState_bool P now c ts errors _ h1

/-- Witness for C1: a connect, a malformed frame, then a disconnect. -/
theorem status_agrees_with_last_state_witness :
    IsStateMsg (stateMsg (.bool false) .null (.num 0)) (.bool false) .null (.num 0) ∧
    (onmessage demoPlatform "t2" (some (stateMsg (.bool false) .null (.num 0)))
      (runEvents (onmessage demoPlatform)
        [("t0", some (stateMsg (.bool true) .null (.num 0))), ("t1", none)]
        (initPage blankPage))).statusText = "Disconnected" :=
  ⟨isStateMsg_stateMsg _ _ _,
    (status_agrees_with_last_state demoPlatform blankPage rfl rfl
      [("t0", some (stateMsg (.bool true) .null (.num 0))), ("t1", none)] "t2"
      (stateMsg (.bool false) .null (.num 0)) .null (.num 0) false
      (isStateMsg_stateMsg _ _ _)).2.1⟩

/-- C2: on a `state` message, when `connected` is strictly equal to the stored
value the indicator text, its class and the log stay as they were; when it
differs the indicator is updated and one line ("Driver Connected" or "Driver
Disconnected") is put in front of the log; in both cases the last-ack and the
error-count displays are set from the message: the last-ack display is
"Never" for `null` and the locale time of `Date(t * 1000)` for a number `t`
other than 0, and the error-count display is the decimal digits of an integer
count, the text itself for a text, and empty for `null` or a missing field. -/
theorem state_message_effect (P : Platform) (now : String)
    (msg connected ts errors : JVal) (pg : Page)
    (hmsg : IsStateMsg msg connected ts errors) :
    (strictEq connected pg.isConnected = true →
      (onmessage P now (some msg) pg).statusText = pg.statusText ∧
      (onmessage P now (some msg) pg).statusClass = pg.statusClass ∧
      (onmessage P now (some msg) pg).logView = pg.logView) ∧
    (strictEq connected pg.isConnected = false →
      (onmessage P now (some msg) pg).isConnected = connected ∧
      (onmessage P now (some msg) pg).statusText =
        (if truthy connected then "Connected" else "Disconnected") ∧
      (onmessage P now (some msg) pg).statusClass =
        (if truthy connected then "status online" else "status offline") ∧
      (onmessage P now (some msg) pg).logView =
        logLines now (if truthy connected then "Driver Connected" else "Driver Disconnected")
          pg.logView ∧
      (pg.logView.length ≤ 50 →
        (onmessage P now (some msg) pg).logView =
          (entryText (now, if truthy connected then "Driver Connected"
            else "Driver Disconnected") :: pg.logView).take 50)) ∧
    (onmessage P now (some msg) pg).lastAck = lastAckText P ts ∧
    (onmessage P now (some msg) pg).errorCount = domText P errors ∧
    (ts = .null → (onmessage P now (some msg) pg).lastAck = "Never") ∧
    (∀ t : Rat, ts = .num t → t ≠ 0 →
      (onmessage P now (some msg) pg).lastAck = P.localeTime (some (t * 1000))) ∧
    (∀ n : Int, errors = .num n → n.natAbs ≤ 2 ^ 53 →
      (onmessage P now (some msg) pg).errorCount = toString n) ∧
    (∀ txt : String, errors = .str txt →
      (onmessage P now (some msg) pg).errorCount = txt) ∧
    (errors = .null ∨ errors = .undefined →
      (onmessage P now (some msg) pg).errorCount = "") := by
  rw [onmessage_state P now msg connected ts errors pg hmsg]
  refine ⟨fun h => ?_, fun h => ?_, ?_, ?_, fun h => ?_, fun t h ht => ?_,
    fun n h hn => ?_, fun txt h => ?_, fun h => ?_⟩
  rotate_left 4
  · simp [afterState, lastAckText, truthy, h]
  · simp [afterState, lastAckText, truthy, toNumber, h, ht]
  · simp only [afterState, h, domText, toStringJS]
    exact numToStr_int P n hn
  · simp [afterState, h, domText, toStringJS]
  · rcases h with h | h <;> simp [afterState, h, domText]
  · simp [afterState, h]
  · refine ⟨by simp [afterState, h], by simp [afterState, h], ?_, by simp [afterState, h], ?_⟩
    · cases hc : truthy connected <;> simp [afterState, h, hc]
    · intro hlen
      simp only [afterState, h]
      exact logLines_capped now _ pg.logView hlen
  · simp only [afterState]
  · simp only [afterState]

/-- Witness for C2: the first connect on a fresh page logs one line. -/
theorem state_message_effect_witness :
    IsStateMsg (stateMsg (.bool true) .null (.num 3)) (.bool true) .null (.num 3) ∧
    strictEq (.bool true) blankPage.isConnected = false ∧
    (onmessage demoPlatform "t" (some (stateMsg (.bool true) .null (.num 3))) blankPage).logView
      = ["[t] Driver Connected"] ∧
    (onmessage demoPlatform "t" (some (stateMsg (.bool true) .null (.num 3))) blankPage).lastAck
      = "Never" ∧
    (onmessage demoPlatform "t" (some (stateMsg (.bool true) .null (.num 3)))
      blankPage).errorCount = "3" :=
  ⟨isStateMsg_stateMsg _ _ _, rfl,
    ((state_message_effect demoPlatform "t" (stateMsg (.bool true) .null (.num 3))
      (.bool true) .null (.num 3) blankPage (isStateMsg_stateMsg _ _ _)).2.1 rfl).2.2.2.1,
    (state_message_effect demoPlatform "t" (stateMsg (.bool true) .null (.num 3))
      (.bool true) .null (.num 3) blankPage (isStateMsg_stateMsg _ _ _)).2.2.2.2.1 rfl,
    (state_message_effect demoPlatform "t" (stateMsg (.bool true) .null (.num 3))
      (.bool true) .null (.num 3) blankPage (isStateMsg_stateMsg _ _ _)).2.2.2.2.2.2.1 3
      (by norm_num) (by decide)⟩

/-- C4: starting from an empty log view, after any sequence of `log` calls the
view holds the texts of the most recent calls, newest first, at most 50 of
them: its length is the smaller of the number of calls and 50, and after 51
calls it is the last 50 calls, newest first, the first call evicted. -/
theorem log_keeps_newest_fifty (calls : List (String × String)) (pg : Page) :
    (logAll calls { pg with logView := [] }).logView =
      (calls.reverse.take 50).map entryText ∧
    (logAll calls { pg with logView := [] }).logView.length = min calls.length 50 ∧
    (logAll calls { pg with logView := [] }).logView.length ≤ 50 ∧
    (∀ first rest, calls = first :: rest → rest.length = 50 →
      (logAll calls { pg with logView := [] }).logView = rest.reverse.map entryText ∧
      (logAll calls { pg with logView := [] }).logView.head? = rest.getLast?.map entryText) := by
  have h := logAll_logView calls { pg with logView := [] } [] rfl
  have h1 : (logAll calls { pg with logView := [] }).logView =
      (calls.reverse.take 50).map entryText := by
    rw [h]; simp [List.map_take]
  refine ⟨h1, ?_, ?_, ?_⟩
  · rw [h1]; simp [Nat.min_comm]
  · rw [h1]; simp
  · intro first rest hc hlen
    have h2 : (logAll calls { pg with logView := [] }).logView = rest.reverse.map entryText := by
      rw [h1, hc, List.reverse_cons, List.take_append_of_le_length (by simp [hlen])]
      rw [List.take_of_length_le (by simp [hlen])]
    refine ⟨h2, ?_⟩
    rw [h2]
    simp [List.head?_reverse]

/-- Witness for C4: 51 calls leave the last 50, newest first. -/
theorem log_keeps_newest_fifty_witness :
    (logAll (("t0", "first") :: List.replicate 50 ("t1", "later")) blankPage).logView.length
      = 50 ∧
    (logAll (("t0", "first") :: List.replicate 50 ("t1", "later")) blankPage).logView =
      (List.replicate 50 ("t1", "later")).reverse.map entryText :=
  ⟨by
    have h := (log_keeps_newest_fifty
      (("t0", "first") :: List.replicate 50 ("t1", "later")) blankPage).2.1
    simpa [blankPage, initPage] using h,
   ((log_keeps_newest_fifty (("t0", "first") :: List.replicate 50 ("t1", "later"))
      blankPage).2.2.2 ("t0", "first") (List.replicate 50 ("t1", "later")) rfl
      (by simp)).1⟩

/-- C5, as the claim states it, fails at the numeric timestamp 0: the display
is the sentinel "Never", not the rendering of `Date(0 * 1000)`. -/
theorem last_ack_zero_shows_sentinel :
    (onmessage demoPlatform "t" (some (stateMsg (.bool true) (.num 0) (.num 0)))
      blankPage).lastAck = "Never" ∧
    (onmessage demoPlatform "t" (some (stateMsg (.bool true) (.num 0) (.num 0)))
      blankPage).lastAck ≠ demoPlatform.localeTime (some ((0 : Rat) * 1000)) := by
  have h : (onmessage demoPlatform "t" (some (stateMsg (.bool true) (.num 0) (.num 0)))
      blankPage).lastAck = "Never" := by
    rw [onmessage_state demoPlatform "t" _ (.bool true) (.num 0) (.num 0) blankPage
      (isStateMsg_stateMsg _ _ _)]
    simp [afterState, lastAckText, truthy]
  refine ⟨h, ?_⟩
  rw [h]
  simp [demoPlatform]

/-- C5, amended: on a `state` message the last-ack display is "Never" when
`last_ack_ts` is `null` or the number 0, and for every other number `t` it is
the locale time text of `Date(t * 1000)`. -/
theorem last_ack_display (P : Platform) (now : String) (msg connected ts errors : JVal)
    (pg : Page) (hmsg : IsStateMsg msg connected ts errors) :
    (ts = .null → (onmessage P now (some msg) pg).lastAck = "Never") ∧
    (ts = .num 0 → (onmessage P now (some msg) pg).lastAck = "Never") ∧
    (∀ t : Rat, ts = .num t → t ≠ 0 →
      (onmessage P now (some msg) pg).lastAck = P.localeTime (some (t * 1000))) := by
  rw [onmessage_state P now msg connected ts errors pg hmsg]
  refine ⟨fun h => ?_, fun h => ?_, fun t h ht => ?_⟩
  · simp [afterState, lastAckText, truthy, h]
  · simp [afterState, lastAckText, truthy, h]
  · simp [afterState, lastAckText, truthy, toNumber, h, ht]

/-- Witness for C5 amended: the timestamp 5 is rendered as the time of
`Date(5000)`. -/
theorem last_ack_display_witness :
    IsStateMsg (stateMsg (.bool true) (.num 5) (.num 0)) (.bool true) (.num 5) (.num 0) ∧
    (onmessage demoPlatform "t" (some (stateMsg (.bool true) (.num 5) (.num 0)))
      blankPage).lastAck = demoPlatform.localeTime (some ((5 : Rat) * 1000)) :=
  ⟨isStateMsg_stateMsg _ _ _,
    (last_ack_display demoPlatform "t" (stateMsg (.bool true) (.num 5) (.num 0))
      (.bool true) (.num 5) (.num 0) blankPage (isStateMsg_stateMsg _ _ _)).2.2 5 rfl
      (by norm_num)⟩

/-- C3: for each of the four directional controls and every configured
speed `s` in [0,100] (the initial number 50, or the decimal text the slider
stored), a press-start followed by a press-end sends exactly two frames: the
`gimbal_rate` frame with the control's direction and speed `s`, then the
`gimbal_rate` frame with yaw 0, pitch 0, speed 0; the direction is not (0,0)
and its components are in {-1, 0, 1}. -/
theorem press_release_sends_two_frames (P : Platform) (ctl : String × Int × Int)
    (hctl : ctl ∈ holdControls) (s : Nat) (_hs : s ≤ 100) (pg : Page)
    (hspeed : (pg.currentSpeed = .num 50 ∧ s = 50) ∨ pg.currentSpeed = .str (toString s))
    (down up : PressEvent) (hdown : down = .mousedown ∨ down = .touchstart)
    (hup : up = .mouseup ∨ up = .touchend) (t1 t2 : String) :
    (holdHandler P ctl.2.1 ctl.2.2 t2 up (holdHandler P ctl.2.1 ctl.2.2 t1 down pg)).sent =
      pg.sent ++
        [.obj [("type", .str "gimbal_rate"), ("yaw", .num ctl.2.1), ("pitch", .num ctl.2.2),
          ("speed", .num s)],
         .obj [("type", .str "gimbal_rate"), ("yaw", .num 0), ("pitch", .num 0),
          ("speed", .num 0)]] ∧
    (ctl.2.1, ctl.2.2) ≠ (0, 0) ∧
    ctl.2.1 ∈ [(-1 : Int), 0, 1] ∧ ctl.2.2 ∈ [(-1 : Int), 0, 1] := by
  have hp : parseInt P pg.currentSpeed = some (s : Int) := by
    rcases hspeed with ⟨h1, h2⟩ | h
    · rw [h1, h2]; exact parseInt_fifty P
    · rw [h]; exact parseInt_str P (s : Int)
  refine ⟨?_, ?_, ?_, ?_⟩
  · rcases hdown with rfl | rfl <;> rcases hup with rfl | rfl <;>
      simp [holdHandler, sendMove, stopMove, log, hp, moveFrame, jsonNum]
  all_goals
    simp only [holdControls, List.mem_cons, List.mem_singleton, List.not_mem_nil, or_false]
      at hctl
    rcases hctl with rfl | rfl | rfl | rfl <;> decide

/-- Witness for C3: the up button at the slider value 73, mouse-down then
touch-end. -/
theorem press_release_sends_two_frames_witness :
    (holdHandler demoPlatform 0 1 "t2" .touchend
      (holdHandler demoPlatform 0 1 "t1" .mousedown (speedInput "73" blankPage))).sent =
      [.obj [("type", .str "gimbal_rate"), ("yaw", .num 0), ("pitch", .num 1),
        ("speed", .num 73)],
       .obj [("type", .str "gimbal_rate"), ("yaw", .num 0), ("pitch", .num 0),
        ("speed", .num 0)]] := by
  have h := (press_release_sends_two_frames demoPlatform ("btn-up", 0, 1) (by decide) 73
    (by decide) (speedInput "73" blankPage) (Or.inr rfl) .mousedown .touchend (Or.inl rfl)
    (Or.inr rfl) "t1" "t2").1
  simpa [speedInput, blankPage, initPage] using h

/-- C7: the connect handler issues a request exactly when the port field is
not empty. With an empty port it sends nothing and logs one line, the
validation error; with a non-empty port `p` and a baud selection that is the
decimal text of an integer `b` (of magnitude at most 2^53, where numbers are
exact) it sends one request, a POST to `/api/connect` whose body is
`{port: p, baud: b}`, and logs nothing. -/
theorem connect_sends_iff_port (now : String) (pg : Page) :
    ((connectClick now pg).requests ≠ pg.requests ↔ pg.portInput ≠ "") ∧
    (pg.portInput = "" →
      (connectClick now pg).requests = pg.requests ∧
      (connectClick now pg).logView =
        logLines now "Error: Please select or enter a serial port." pg.logView) ∧
    (∀ b : Int, pg.portInput ≠ "" → pg.baudSelect = toString b → b.natAbs ≤ 2 ^ 53 →
      (connectClick now pg).requests = pg.requests ++
        [⟨"POST", "/api/connect", [("Content-Type", "application/json")],
          some (.obj [("port", .str pg.portInput), ("baud", .num b)])⟩] ∧
      (connectClick now pg).logView = pg.logView) := by
  refine ⟨?_, ?_, ?_⟩
  · by_cases h : pg.portInput = ""
    · simp [connectClick, h, log]
    · simp [connectClick, h]
  · intro h
    simp [connectClick, h, log]
  · intro b h hb _
    simp [connectClick, h, hb, parseIntStr_toString_int, connectRequest, jsonNum]

/-- Witness for C7: port `/dev/ttyUSB0` at 115200 baud. -/
theorem connect_sends_iff_port_witness :
    (connectClick "t" { blankPage with portInput := "/dev/ttyUSB0" }).requests =
      [⟨"POST", "/api/connect", [("Content-Type", "application/json")],
        some (.obj [("port", .str "/dev/ttyUSB0"), ("baud", .num 115200)])⟩] :=
  ((connect_sends_iff_port "t" { blankPage with portInput := "/dev/ttyUSB0" }).2.2 115200
    (by decide) rfl (by decide)).1

/-- C6, as the claim states it, fails at the success status 201: the body
`{status: "ok"}` is logged as "Error: Connection failed", not as
"Connect req: ok". -/
theorem connect_201_logged_as_error :
    (connectDone demoPlatform "t" (.response 201 (some (.obj [("status", .str "ok")])))
      blankPage).logView = ["[t] Error: Connection failed"] ∧
    (connectDone demoPlatform "t" (.response 201 (some (.obj [("status", .str "ok")])))
      blankPage).logView ≠ ["[t] Connect req: ok"] := by
  constructor <;> decide

/-- C6, amended: for every response to the connect request whose body is a
JSON object, the handler logs exactly one message: "Connect req: " followed by
the body's `status` when the HTTP status is exactly 200, and for every other
status "Error: " followed by the body's `detail` when that is truthy and by
"Connection failed" otherwise. -/
theorem connect_response_logged (P : Platform) (now : String) (status : Nat)
    (fields : List (String × JVal)) (pg : Page) :
    (status = 200 →
      (connectDone P now (.response status (some (.obj fields))) pg).logView =
        logLines now ("Connect req: " ++ toStringJS P (lookupField "status" fields))
          pg.logView) ∧
    (status ≠ 200 → truthy (lookupField "detail" fields) = true →
      (connectDone P now (.response status (some (.obj fields))) pg).logView =
        logLines now ("Error: " ++ toStringJS P (lookupField "detail" fields)) pg.logView) ∧
    (status ≠ 200 → truthy (lookupField "detail" fields) = false →
      (connectDone P now (.response status (some (.obj fields))) pg).logView =
        logLines now "Error: Connection failed" pg.logView) := by
  refine ⟨fun h => ?_, fun h ht => ?_, fun h ht => ?_⟩
  · simp [connectDone, h, getProp, log]
  · simp [connectDone, h, getProp, log, orElse, ht]
  · simp [connectDone, h, getProp, log, orElse, ht, toStringJS]

/-- Witness for C6 amended: 200 with `{status: "ok"}` logs "Connect req: ok"
and 400 with `{detail: "busy"}` logs "Error: busy". -/
theorem connect_response_logged_witness :
    (connectDone demoPlatform "t" (.response 200 (some (.obj [("status", .str "ok")])))
      blankPage).logView = logLines "t" ("Connect req: " ++ "ok") [] ∧
    (connectDone demoPlatform "t" (.response 400 (some (.obj [("detail", .str "busy")])))
      blankPage).logView = logLines "t" ("Error: " ++ "busy") [] :=
  ⟨(connect_response_logged demoPlatform "t" 200 [("status", .str "ok")] blankPage).1 rfl,
   (connect_response_logged demoPlatform "t" 400 [("detail", .str "busy")] blankPage).2.1
     (by decide) (by decide)⟩

theorem foldl_addOption (P : Platform) (items : List JVal) (pg : Page) :
    items.foldl (addOption P) pg =
      { pg with portList := pg.portList ++ items.map (toStringJS P) } := by
  induction items generalizing pg with
  | nil => simp
  | cons x rest ih => simp [ih, addOption]

/-- C8: for every list of port strings in the `ports` field of the response,
`loadPorts` replaces the listed options by one option per port, in order,
with the port as value; the port field becomes the first port when there is
one and is unchanged otherwise; nothing is logged. -/
theorem load_ports_populates (P : Platform) (now : String) (status : Nat) (data : JVal)
    (ports : List String) (pg : Page)
    (hdata : getProp data "ports" = .ok (.arr (ports.map JVal.str))) :
    (loadPortsDone P now (.response status (some data)) pg).portList = ports ∧
    (loadPortsDone P now (.response status (some data)) pg).portInput =
      ports.headD pg.portInput ∧
    (loadPortsDone P now (.response status (some data)) pg).logView = pg.logView := by
  have hmap : ∀ l : List String, List.map (toStringJS P) (List.map JVal.str l) = l := by
    intro l
    induction l with
    | nil => rfl
    | cons p rest ih => simp only [List.map_cons, ih, toStringJS]
  simp only [loadPortsDone, hdata]
  rw [foldl_addOption, hmap]
  cases ports with
  | nil => simp
  | cons p rest => simp [inputText, toStringJS]

/-- Witness for C8: two ports give two options and pre-fill the first. -/
theorem load_ports_populates_witness :
    (loadPortsDone demoPlatform "t"
      (.response 200 (some (.obj [("ports", .arr [.str "/dev/ttyUSB0", .str "/dev/ttyUSB1"])])))
      { blankPage with portList := ["old"] }).portList = ["/dev/ttyUSB0", "/dev/ttyUSB1"] ∧
    (loadPortsDone demoPlatform "t"
      (.response 200 (some (.obj [("ports", .arr [.str "/dev/ttyUSB0", .str "/dev/ttyUSB1"])])))
      { blankPage with portList := ["old"] }).portInput = "/dev/ttyUSB0" :=
  ⟨(load_ports_populates demoPlatform "t" 200
      (.obj [("ports", .arr [.str "/dev/ttyUSB0", .str "/dev/ttyUSB1"])])
      ["/dev/ttyUSB0", "/dev/ttyUSB1"] { blankPage with portList := ["old"] } rfl).1,
   (load_ports_populates demoPlatform "t" 200
      (.obj [("ports", .arr [.str "/dev/ttyUSB0", .str "/dev/ttyUSB1"])])
      ["/dev/ttyUSB0", "/dev/ttyUSB1"] { blankPage with portList := ["old"] } rfl).2.1⟩

/-- C9, as the claim states it, fails for a response with status 500 whose
body carries a port list: nothing is logged, the list is filled and the port
field is overwritten. -/
theorem load_ports_ignores_status :
    (loadPortsDone demoPlatform "t"
      (.response 500 (some (.obj [("ports", .arr [.str "/dev/ttyUSB0"])])))
      blankPage).logView = [] ∧
    (loadPortsDone demoPlatform "t"
      (.response 500 (some (.obj [("ports", .arr [.str "/dev/ttyUSB0"])])))
      blankPage).portList = ["/dev/ttyUSB0"] ∧
    (loadPortsDone demoPlatform "t"
      (.response 500 (some (.obj [("ports", .arr [.str "/dev/ttyUSB0"])])))
      blankPage).portInput = "/dev/ttyUSB0" ∧
    blankPage.portInput = "" := by
  refine ⟨?_, ?_, ?_, ?_⟩ <;> decide

/-- C9, amended: a rejected request, a body that is not JSON, and a JSON body
without a `ports` array are the failures of `loadPorts`, whatever the status;
on each of them it logs exactly one "Failed to load ports: " message, leaves
the port field as it was, issues no request, and leaves the option list either
as it was or empty, so a list that was empty stays empty. On any other
response, whatever its status, it logs nothing. -/
theorem load_ports_failure_logged (P : Platform) (now : String) (out : FetchOutcome)
    (pg : Page) :
    portsFailure .rejected = true ∧
    (∀ status, portsFailure (.response status none) = true) ∧
    (portsFailure out = true →
      (∃ e, (loadPortsDone P now out pg).logView =
        logLines now ("Failed to load ports: " ++ P.errText e) pg.logView) ∧
      (loadPortsDone P now out pg).portInput = pg.portInput ∧
      (loadPortsDone P now out pg).requests = pg.requests ∧
      ((loadPortsDone P now out pg).portList = pg.portList ∨
        (loadPortsDone P now out pg).portList = []) ∧
      (pg.portList = [] → (loadPortsDone P now out pg).portList = [])) ∧
    (portsFailure out = false → (loadPortsDone P now out pg).logView = pg.logView) := by
  refine ⟨rfl, fun _ => rfl, ?_, ?_⟩
  · intro hf
    cases out with
    | rejected =>
      exact ⟨⟨.fetchRejected, rfl⟩, rfl, rfl, Or.inl rfl, fun h => h⟩
    | response status body =>
      cases body with
      | none => exact ⟨⟨.bodyNotJson, rfl⟩, rfl, rfl, Or.inl rfl, fun h => h⟩
      | some data =>
        cases hg : getProp data "ports" with
        | error e =>
          simp only [loadPortsDone, hg]
          exact ⟨⟨e, rfl⟩, rfl, rfl, Or.inr rfl, fun _ => rfl⟩
        | ok ports =>
          cases ports with
          | arr items => simp [portsFailure, hg] at hf
          | undefined =>
            simp only [loadPortsDone, hg]
            exact ⟨⟨_, rfl⟩, rfl, rfl, Or.inr rfl, fun _ => rfl⟩
          | null =>
            simp only [loadPortsDone, hg]
            exact ⟨⟨_, rfl⟩, rfl, rfl, Or.inr rfl, fun _ => rfl⟩
          | bool b =>
            simp only [loadPortsDone, hg]
            exact ⟨⟨_, rfl⟩, rfl, rfl, Or.inr rfl, fun _ => rfl⟩
          | num q =>
            simp only [loadPortsDone, hg]
            exact ⟨⟨_, rfl⟩, rfl, rfl, Or.inr rfl, fun _ => rfl⟩
          | str t =>
            simp only [loadPortsDone, hg]
            exact ⟨⟨_, rfl⟩, rfl, rfl, Or.inr rfl, fun _ => rfl⟩
          | obj fs =>
            simp only [loadPortsDone, hg]
            exact ⟨⟨_, rfl⟩, rfl, rfl, Or.inr rfl, fun _ => rfl⟩
  · intro hf
    cases out with
    | rejected => simp [portsFailure] at hf
    | response status body =>
      cases body with
      | none => simp [portsFailure] at hf
      | some data =>
        cases hg : getProp data "ports" with
        | error e => simp [portsFailure, hg] at hf
        | ok ports =>
          cases ports with
          | arr items =>
            simp only [loadPortsDone, hg]
            rw [foldl_addOption]
            split <;> rfl
          | undefined => simp [portsFailure, hg] at hf
          | null => simp [portsFailure, hg] at hf
          | bool b => simp [portsFailure, hg] at hf
          | num q => simp [portsFailure, hg] at hf
          | str t => simp [portsFailure, hg] at hf
          | obj fs => simp [portsFailure, hg] at hf

/-- Witness for C9 amended: a 500 response with `{detail: "boom"}` on a page
with an empty list is logged once and changes nothing else. -/
theorem load_ports_failure_logged_witness :
    portsFailure (.response 500 (some (.obj [("detail", .str "boom")]))) = true ∧
    (loadPortsDone demoPlatform "t" (.response 500 (some (.obj [("detail", .str "boom")])))
      blankPage).portList = [] ∧
    (loadPortsDone demoPlatform "t" (.response 500 (some (.obj [("detail", .str "boom")])))
      blankPage).portInput = blankPage.portInput :=
  ⟨rfl,
   ((load_ports_failure_logged demoPlatform "t"
      (.response 500 (some (.obj [("detail", .str "boom")]))) blankPage).2.2.1 rfl).2.2.2.2 rfl,
   ((load_ports_failure_logged demoPlatform "t"
      (.response 500 (some (.obj [("detail", .str "boom")]))) blankPage).2.2.1 rfl).2.1⟩

/-! ## Held controls against the two-state machine -/

theorem holdHandler_sent (P : Platform) (yaw pitch : Int) (now : String) (ev : PressEvent)
    (pg : Page) :
    (holdHandler P yaw pitch now ev pg).sent = pg.sent ++
      [pressCommand (moveFrame yaw pitch (parseInt P pg.currentSpeed))
        (moveFrame 0 0 (some 0)) ev] ∧
    (holdHandler P yaw pitch now ev pg).currentSpeed = pg.currentSpeed := by
  cases ev <;>
    simp [holdHandler, sendMove, stopMove, log, pressCommand, PressEvent.isStart]

theorem zoomHandler_sent (dir now : String) (ev : PressEvent) (pg : Page) :
    (zoomHandler dir now ev pg).sent = pg.sent ++
      [pressCommand (zoomFrame dir) (zoomFrame "stop") ev] := by
  cases ev <;> simp [zoomHandler, pressCommand, PressEvent.isStart]

theorem runEvents_hold_sent (P : Platform) (yaw pitch : Int)
    (evs : List (String × PressEvent)) (pg : Page) :
    (runEvents (holdHandler P yaw pitch) evs pg).sent = pg.sent ++
      evs.map (fun e => pressCommand (moveFrame yaw pitch (parseInt P pg.currentSpeed))
        (moveFrame 0 0 (some 0)) e.2) := by
  induction evs generalizing pg with
  | nil => simp [runEvents]
  | cons e rest ih =>
    have h := holdHandler_sent P yaw pitch e.1 e.2 pg
    have h2 := ih (holdHandler P yaw pitch e.1 e.2 pg)
    simp only [runEvents, List.foldl_cons] at h2 ⊢
    rw [h2, h.1, h.2]
    simp

theorem runEvents_zoom_sent (dir : String) (evs : List (String × PressEvent)) (pg : Page) :
    (runEvents (zoomHandler dir) evs pg).sent = pg.sent ++
      evs.map (fun e => pressCommand (zoomFrame dir) (zoomFrame "stop") e.2) := by
  induction evs generalizing pg with
  | nil => simp [runEvents]
  | cons e rest ih =>
    have h := zoomHandler_sent dir e.1 e.2 pg
    have h2 := ih (zoomHandler dir e.1 e.2 pg)
    simp only [runEvents, List.foldl_cons] at h2 ⊢
    rw [h2, h]
    simp

theorem machineRun_of_allChange (start stop : JVal) (st : HoldState) (evs : List PressEvent)
    (h : allChange st evs = true) :
    machineRun start stop st evs = evs.map (pressCommand start stop) := by
  induction evs generalizing st with
  | nil => rfl
  | cons ev rest ih =>
    cases st <;> cases hs : ev.isStart <;>
      simp_all [allChange, machineRun, machineStep, pressCommand]

theorem machineRun_length_le (start stop : JVal) (st : HoldState) (evs : List PressEvent) :
    (machineRun start stop st evs).length ≤ evs.length := by
  induction evs generalizing st with
  | nil => simp [machineRun]
  | cons ev rest ih =>
    have h1 := ih .idle
    have h2 := ih .active
    cases st <;> cases hs : ev.isStart <;>
      simp only [machineRun, machineStep, hs, List.length_append, List.length_cons,
        List.length_nil, List.length_singleton] <;>
      omega

theorem machineRun_length_lt (start stop : JVal) (st : HoldState) (evs : List PressEvent)
    (h : allChange st evs = false) :
    (machineRun start stop st evs).length < evs.length := by
  induction evs generalizing st with
  | nil => simp [allChange] at h
  | cons ev rest ih =>
    cases st <;> cases hs : ev.isStart <;>
      simp only [allChange, hs, Bool.true_and, Bool.false_and, Bool.not_true, Bool.not_false]
        at h <;>
      simp only [machineRun, machineStep, hs, List.length_append, List.length_cons,
        List.length_nil, List.length_singleton]
    · have := machineRun_length_le start stop .idle rest; omega
    · have := ih .active h; omega
    · have := ih .idle h; omega
    · have := machineRun_length_le start stop .active rest; omega

theorem sent_eq_machine_iff (start stop : JVal) (evs : List PressEvent) (base : List JVal) :
    base ++ evs.map (pressCommand start stop) = base ++ machineRun start stop .idle evs ↔
      allChange .idle evs = true := by
  constructor
  · intro h
    by_contra hc
    have hc2 : allChange .idle evs = false := by simpa using hc
    have hlt := machineRun_length_lt start stop .idle evs hc2
    have hlen := congrArg List.length (List.append_cancel_left h)
    simp at hlen
    omega
  · intro h
    rw [machineRun_of_allChange start stop .idle evs h]

/-- C10, as the claim states it, fails on a mouse-leave delivered while the
control is Idle: the event does not change the machine's state and the machine
emits nothing, yet the handler of the up button sends the stop frame. -/
theorem idle_mouseleave_sends_stop :
    (machineStep (moveFrame 0 1 (some 50)) (moveFrame 0 0 (some 0)) .idle .mouseleave).1
      = .idle ∧
    machineRun (moveFrame 0 1 (some 50)) (moveFrame 0 0 (some 0)) .idle [.mouseleave] = [] ∧
    (runEvents (holdHandler demoPlatform 0 1) [("t", .mouseleave)] blankPage).sent =
      [moveFrame 0 0 (some 0)] :=
  ⟨rfl, rfl, rfl⟩

/-- C10, amended: on every sequence of pointer and touch events delivered to
one continuous control, each press-start sends exactly one start command and
each press-end, press-leave or touch-end sends exactly one stop command,
whether or not the event changes the state of the two-state machine; the
frames sent are those the machine emits exactly when every event of the
sequence changes the machine's state. Stated for a directional button and for
a zoom button. -/
theorem handlers_send_on_every_event (P : Platform) (yaw pitch : Int) (dir : String)
    (evs : List (String × PressEvent)) (pg : Page) :
    (runEvents (holdHandler P yaw pitch) evs pg).sent = pg.sent ++
      evs.map (fun e => pressCommand (moveFrame yaw pitch (parseInt P pg.currentSpeed))
        (moveFrame 0 0 (some 0)) e.2) ∧
    (runEvents (zoomHandler dir) evs pg).sent = pg.sent ++
      evs.map (fun e => pressCommand (zoomFrame dir) (zoomFrame "stop") e.2) ∧
    ((runEvents (holdHandler P yaw pitch) evs pg).sent = pg.sent ++
        machineRun (moveFrame yaw pitch (parseInt P pg.currentSpeed)) (moveFrame 0 0 (some 0))
          .idle (evs.map (fun e => e.2)) ↔
      allChange .idle (evs.map (fun e => e.2)) = true) ∧
    ((runEvents (zoomHandler dir) evs pg).sent = pg.sent ++
        machineRun (zoomFrame dir) (zoomFrame "stop") .idle (evs.map (fun e => e.2)) ↔
      allChange .idle (evs.map (fun e => e.2)) = true) := by
  have hmap : ∀ (start stop : JVal),
      evs.map (fun e => pressCommand start stop e.2) =
        (evs.map (fun e => e.2)).map (pressCommand start stop) := by
    intro start stop; simp [List.map_map, Function.comp_def]
  refine ⟨runEvents_hold_sent P yaw pitch evs pg, runEvents_zoom_sent dir evs pg, ?_, ?_⟩
  · rw [runEvents_hold_sent, hmap]
    exact sent_eq_machine_iff _ _ _ _
  · rw [runEvents_zoom_sent, hmap]
    exact sent_eq_machine_iff _ _ _ _

end GimbalUI
